import Mathlib

/-!
Verification of the project-service controller of the Freelance-TT backend
(`src/routes/user.routes.js`, embedded project controller, together with the
route table in `src/routes/project.routes.js`).

The controller is a set of Express handlers over a Mongoose `Project`
collection.  We embed it shallowly: the document store is a `List Project`,
each handler is a pure function from the store and its request data to a
result value (one constructor per distinct exit of the handler) paired with
the store after the call.  External library behaviour is embedded where the
handlers rely on it:

* `isValidObjectId` (mongoose): for a string argument it accepts exactly the
  24-character hexadecimal strings.
* `Model.findById(id)` rejects with a `CastError` when `id` is not a valid
  object id; otherwise it resolves to the stored document with that `_id`,
  or `null`.  A rejection inside a handler's `try` block lands in its
  `catch`, which answers with a 500 server-error response.
* Reading a property of `null` (e.g. `project.owner` when `findById`
  resolved `null`) throws a `TypeError`; inside a `try` block this again
  lands in the `catch` (500).
* In a mongoose `$set` update, keys whose value is `undefined` are stripped
  before the update is sent, so an omitted body field leaves the stored
  field untouched.
* `Array.prototype.some(f)` evaluates `f` left to right and stops at the
  first element on which `f` returns `true`; calling `.trim()` on
  `undefined` throws a `TypeError`.
-/

/-- A stored `Project` document.  The schema file
(`src/models/project.model.js`) is not part of the sources; the field list
is modelled from the spec's data model (§3) and from the fields the
controller reads and writes: `name`, `description`, `startDate`, `endDate`,
`status`, `owner`, `members`, `totalHours`, plus the document id.  The
schema has no `userId` path. -/
structure Project where
  id : String
  name : String
  description : String
  startDate : String
  endDate : String
  status : Option String
  owner : String
  members : List String
  totalHours : Nat
deriving Repr, DecidableEq

/-- The document store: the `Project` collection, as a list of documents. -/
abbrev Store := List Project

/-- Mongoose's `isValidObjectId` specialised to string inputs: a string is a
valid object id exactly when it consists of 24 hexadecimal characters. -/
def isValidObjectId (s : String) : Bool :=
  s.length == 24 && s.toList.all (fun c =>
    c.isDigit || ('a' ≤ c && c ≤ 'f') || ('A' ≤ c && c ≤ 'F'))

/-- `Project.findById(id)` after a successful cast: the stored document with
that id, if any. -/
def findById (store : Store) (id : String) : Option Project :=
  store.find? (fun p => p.id == id)

/-- `Project.findOne({name})`: some document with that name, if any. -/
def findOneByName (store : Store) (name : String) : Option Project :=
  store.find? (fun p => p.name == name)

/-- Replace the document with the given id by `p'` (what
`findByIdAndUpdate` / `save` persist). -/
def replaceById (store : Store) (id : String) (p' : Project) : Store :=
  store.map (fun q => if q.id == id then p' else q)

/-- JavaScript truthiness of an optional string field: `undefined` and the
empty string are falsy, every other string is truthy. -/
def truthy : Option String → Bool
  | none => false
  | some s => s ≠ ""

/-! ## createProject -/

/-- The request body of `createProject`: the four fields read from
`req.body`, each possibly absent (`undefined`). -/
structure CreateBody where
  name : Option String
  description : Option String
  startDate : Option String
  endDate : Option String
deriving Repr, DecidableEq

/-- The distinct exits of the `createProject` handler. -/
inductive CreateResult where
  /-- `field.trim()` threw a `TypeError` on an absent field; the blank-field
  check at the top of the handler is outside its `try`/`catch`, so the
  exception escapes the handler and no handler response is produced. -/
  | uncaughtTypeError
  /-- 400 `"All fields are required"`. -/
  | validationError
  /-- 400 `"Project with this name alraeady exists"`. -/
  | conflictError
  /-- 200, the created project. -/
  | ok (p : Project)
deriving Repr, DecidableEq

/-- JavaScript `String.prototype.trim()`: strip leading and trailing
whitespace.  Defined over the character list so that it evaluates by
structural recursion. -/
def jsTrim (s : String) : String :=
  String.mk
    (((s.toList.dropWhile Char.isWhitespace).reverse.dropWhile
      Char.isWhitespace).reverse)

/-- `[name, description, startDate, endDate].some((field) => field.trim() === "")`,
with JavaScript evaluation order: elements are visited left to right, the
first blank field short-circuits to `true`, and `.trim()` on an absent
(`undefined`) field throws (`none` outcome). -/
def blankCheck : List (Option String) → Option Bool
  | [] => some false
  | none :: _ => none
  | some s :: rest => if jsTrim s == "" then some true else blankCheck rest

/-- The `createProject` handler (`user.routes.js` lines 18–52).  `newId` is
the object id the database assigns to the inserted document. -/
def createProject (store : Store) (body : CreateBody) (callerId : String)
    (newId : String) : CreateResult × Store :=
  match blankCheck [body.name, body.description, body.startDate, body.endDate] with
  | none => (.uncaughtTypeError, store)
  | some true => (.validationError, store)
  | some false =>
    match body.name, body.description, body.startDate, body.endDate with
    | some n, some d, some sd, some ed =>
      match findOneByName store n with
      | some _ => (.conflictError, store)
      | none =>
        let p : Project :=
          { id := newId, name := n, description := d, startDate := sd,
            endDate := ed, status := none, owner := callerId,
            members := [], totalHours := 0 }
        (.ok p, store ++ [p])
    | _, _, _, _ =>
      -- unreachable: `blankCheck` answers `some false` only when every
      -- field is present (proved in `blankCheck_false_all_present`)
      (.uncaughtTypeError, store)

/-! ## getProjectById -/

/-- The distinct exits of the `getProjectById` handler. -/
inductive GetResult where
  /-- 401 `"Enter valid project Id"` (invalid object id, checked before any
  lookup). -/
  | validationError
  /-- 404 `"Project Not Found!!"`. -/
  | notFoundError
  /-- 200, the project. -/
  | ok (p : Project)
deriving Repr, DecidableEq

/-- The `getProjectById` handler (`user.routes.js` lines 54–73).  The
handler never consults the caller identity: any authenticated caller may
read any project. -/
def getProjectById (store : Store) (projectId : String) : GetResult :=
  if !isValidObjectId projectId then .validationError
  else
    match findById store projectId with
    | none => .notFoundError
    | some p => .ok p

/-! ## getAllProjectsOfAUser -/

/-- The `getAllProjectsOfAUser` handler (`user.routes.js` lines 75–87).
The handler issues `Project.find({ userId })`, i.e. it filters on a field
named `userId`.  Modelled from the spec: the `Project` schema (absent from
the sources) has no `userId` path (§3), so for a defined caller id the
filter `{ userId: callerId }` matches no stored document and the query
resolves to the empty array.  The array is never `null`, so the handler's
`!allProjects` 400 branch is dead and the handler answers 200 with the
(empty) list. -/
def getAllProjectsOfAUser (store : Store) (_callerId : String) : List Project :=
  store.filter (fun _ => decide False)

/-! ## updateProject -/

/-- The request body of `updateProject`: any subset of the five updatable
fields, absent fields being `undefined`. -/
structure Patch where
  name : Option String
  description : Option String
  startDate : Option String
  endDate : Option String
  status : Option String
deriving Repr, DecidableEq

/-- The distinct exits of the `updateProject` handler.  The handler has no
404 exit: a `findById` that resolves `null` leads to a `TypeError` on
`project.owner`, which the `catch` turns into the 500 response. -/
inductive UpdateResult where
  /-- 400 `"Enter some details to change/update"` (every body field falsy). -/
  | validationError
  /-- 400 `"You are not authorized to make changes to this project!!"`. -/
  | authorizationError
  /-- 500 `"Some server error occured while updating project!! :("`: the
  `catch` branch, reached when `findById` rejects with a `CastError`
  (invalid object id) or when the loaded project is `null` and
  `project.owner` throws a `TypeError`. -/
  | serverError
  /-- 200, the updated project. -/
  | ok (p : Project)
deriving Repr, DecidableEq

/-- The `$set` document of `updateProject` as mongoose persists it: keys
with `undefined` values are stripped, so absent body fields keep their
stored values; present fields (the empty string included) overwrite. -/
def applyPatch (p : Project) (patch : Patch) : Project :=
  { p with
    name := patch.name.getD p.name
    description := patch.description.getD p.description
    startDate := patch.startDate.getD p.startDate
    endDate := patch.endDate.getD p.endDate
    status := match patch.status with
              | none => p.status
              | some s => some s }

/-- The `updateProject` handler (`user.routes.js` lines 102–142).  No
object-id validity check precedes the lookup; the `findById` of an invalid
id rejects inside the `try` and the `catch` answers 500. -/
def updateProject (store : Store) (projectId : String) (patch : Patch)
    (callerId : String) : UpdateResult × Store :=
  if !(truthy patch.name || truthy patch.description || truthy patch.startDate
      || truthy patch.endDate || truthy patch.status) then
    (.validationError, store)
  else if !isValidObjectId projectId then
    (.serverError, store)
  else
    match findById store projectId with
    | none => (.serverError, store)
    | some project =>
      if project.owner ≠ callerId then (.authorizationError, store)
      else
        let p' := applyPatch project patch
        (.ok p', replaceById store projectId p')

/-! ## deleteProject -/

/-- The distinct exits of the `deleteProject` handler. -/
inductive DeleteResult where
  /-- 401 `"Invalid objectId or project ID"` (checked before any lookup). -/
  | validationError
  /-- 404 `"Project not found to delete"`. -/
  | notFoundError
  /-- 200, the deleted project's prior state. -/
  | ok (p : Project)
deriving Repr, DecidableEq

/-- The `deleteProject` handler (`user.routes.js` lines 144–160).  The
handler reads no caller identity at all: deletion is unconditional for any
authenticated caller, with no ownership check. -/
def deleteProject (store : Store) (projectId : String) : DeleteResult × Store :=
  if !isValidObjectId projectId then (.validationError, store)
  else
    match findById store projectId with
    | none => (.notFoundError, store)
    | some p => (.ok p, store.filter (fun q => q.id ≠ projectId))

/-! ## addMembersToProject -/

/-- The distinct exits of the `addMembersToProject` handler (each a thrown
`ApiError`, except the 200 response). -/
inductive AddMemberResult where
  /-- `ApiError(401, "Invalid projectId or UserId")`. -/
  | validationError
  /-- `ApiError(404, "Project not found to add members!!")`. -/
  | projectNotFound
  /-- `ApiError(404, "User not found to add members!!")`. -/
  | userNotFound
  /-- `ApiError(401, "You are not the owner of this project, ...")`. -/
  | authorizationError
  /-- `ApiError(401, "User is already a member of this project")`. -/
  | conflictError
  /-- 200, the updated project. -/
  | ok (p : Project)
deriving Repr, DecidableEq

/-- The `addMembersToProject` handler (`user.routes.js` lines 162–192).
`users` is the set of ids of the stored `User` documents, consulted by the
handler's `User.findById(userId)` existence check. -/
def addMembersToProject (store : Store) (users : List String)
    (projectId userId callerId : String) : AddMemberResult × Store :=
  if !isValidObjectId projectId || !isValidObjectId userId then
    (.validationError, store)
  else
    match findById store projectId with
    | none => (.projectNotFound, store)
    | some project =>
      if !users.contains userId then (.userNotFound, store)
      else if project.owner ≠ callerId then (.authorizationError, store)
      else if project.members.contains userId then (.conflictError, store)
      else
        let p' := { project with members := project.members ++ [userId] }
        (.ok p', replaceById store projectId p')

/-! ## Concrete documents used by the witnesses -/

/-- A valid object id (24 hexadecimal characters) used as a project id. -/
def hexA : String := "aaaaaaaaaaaaaaaaaaaaaaaa"

/-- A valid object id that no stored project carries. -/
def hexB : String := "bbbbbbbbbbbbbbbbbbbbbbbb"

/-- A valid object id used as the id of the owner user. -/
def hexC : String := "cccccccccccccccccccccccc"

/-- A valid object id used as the id of a target user. -/
def hexD : String := "dddddddddddddddddddddddd"

/-- A valid object id used as the id of a non-owner caller. -/
def hexE : String := "eeeeeeeeeeeeeeeeeeeeeeee"

/-- The project of the spec's creation scenario, owned by `hexC`. -/
def demoProject : Project :=
  { id := hexA, name := "Alpha", description := "d",
    startDate := "2024-01-01", endDate := "2024-12-31", status := none,
    owner := hexC, members := [], totalHours := 0 }

/-- `demoProject` after `hexD` has been added as a member. -/
def demoProjectD : Project :=
  { demoProject with members := [hexD] }

/-! ## Helper lemmas -/

/-- A document that `findById` returns carries the id it was looked up by. -/
lemma findById_id {store : Store} {pid : String} {p : Project}
    (h : findById store pid = some p) : p.id = pid := by
  have := List.find?_some h
  simpa using this

/-- Looking the same id up again after replacing the found document yields
the replacement, provided the replacement keeps the id. -/
lemma findById_replaceById {store : Store} {pid : String} {p : Project}
    (p' : Project) (hfind : findById store pid = some p) (hid : p'.id = pid) :
    findById (replaceById store pid p') pid = some p' := by
  induction store with
  | nil => simp [findById] at hfind
  | cons q rest ih =>
    by_cases h : q.id = pid
    · simp [findById, replaceById, List.find?, h, hid]
    · have hq : (q.id == pid) = false := by simp [h]
      have hfind' : findById rest pid = some p := by
        simpa [findById, List.find?, hq] using hfind
      have := ih hfind'
      simpa [findById, replaceById, List.find?, hq] using this

/-- A `some false` answer of the blank-field check means every field was a
present, non-blank string. -/
lemma blankCheck_false_all_present {fields : List (Option String)}
    (h : blankCheck fields = some false) :
    ∀ x ∈ fields, ∃ s, x = some s ∧ jsTrim s ≠ "" := by
  induction fields with
  | nil => simp
  | cons x rest ih =>
    cases x with
    | none => simp [blankCheck] at h
    | some s =>
      by_cases hs : jsTrim s = ""
      · simp [blankCheck, hs] at h
      · have h' : blankCheck rest = some false := by
          simpa [blankCheck, hs] using h
        intro y hy
        rcases List.mem_cons.mp hy with hy | hy
        · exact ⟨s, by simp [hy], hs⟩
        · exact ih h' y hy

/-- Spec-side predicate: among the body fields in evaluation order, some
field is absent and every field before it is a present, non-blank string
(i.e. the first offending — absent or blank — field is absent). -/
def absentBeforeBlank (fields : List (Option String)) : Prop :=
  ∃ i : Nat, fields[i]? = some none ∧
    ∀ j < i, ∃ s : String, fields[j]? = some (some s) ∧ jsTrim s ≠ ""

/-- The blank-field check throws exactly when the first offending field is
absent. -/
lemma blankCheck_none_iff (fields : List (Option String)) :
    blankCheck fields = none ↔ absentBeforeBlank fields := by
  induction fields with
  | nil =>
    simp [blankCheck, absentBeforeBlank]
  | cons x rest ih =>
    cases x with
    | none =>
      constructor
      · intro _
        exact ⟨0, by simp, by omega⟩
      · intro _
        simp [blankCheck]
    | some s =>
      by_cases hs : jsTrim s = ""
      · constructor
        · intro h
          simp [blankCheck, hs] at h
        · rintro ⟨i, hi, hj⟩
          cases i with
          | zero => simp at hi
          | succ k =>
            rcases hj 0 (Nat.succ_pos k) with ⟨t, ht, ht'⟩
            simp at ht
            exact absurd (ht ▸ hs) ht'
      · have hstep : blankCheck (some s :: rest) = blankCheck rest := by
          simp [blankCheck, hs]
        rw [hstep, ih]
        constructor
        · rintro ⟨i, hi, hj⟩
          refine ⟨i + 1, by simpa using hi, ?_⟩
          intro j hjlt
          cases j with
          | zero => exact ⟨s, by simp, hs⟩
          | succ m =>
            rcases hj m (by omega) with ⟨t, ht, ht'⟩
            exact ⟨t, by simpa using ht, ht'⟩
        · rintro ⟨i, hi, hj⟩
          cases i with
          | zero => simp at hi
          | succ k =>
            refine ⟨k, by simpa using hi, ?_⟩
            intro j hjlt
            rcases hj (j + 1) (by omega) with ⟨t, ht, ht'⟩
            exact ⟨t, by simpa using ht, ht'⟩

/-- The update patch used by the witnesses: set `name` to `"Beta"`, leave
every other field absent. -/
def demoPatch : Patch :=
  { name := some "Beta", description := none, startDate := none,
    endDate := none, status := none }

/-- The creation body of the spec's creation scenario. -/
def demoBody : CreateBody :=
  { name := some "Alpha", description := some "d",
    startDate := some "2024-01-01", endDate := some "2024-12-31" }

/-- A creation body that reuses the name `"Alpha"`. -/
def demoBodyDup : CreateBody :=
  { name := some "Alpha", description := some "other",
    startDate := some "2025-01-01", endDate := some "2025-12-31" }

/-! ## Claims -/

/-- C4: for every creation input whose four fields are present and
non-blank after trimming and whose name matches no stored project,
`createProject` inserts and returns a project whose `owner` is the
authenticated caller and whose `totalHours` is `0`. -/
theorem createProject_valid_unique_ok
    (store : Store) (body : CreateBody) (caller nid : String)
    (n d sd ed : String)
    (hn : body.name = some n) (hd : body.description = some d)
    (hsd : body.startDate = some sd) (hed : body.endDate = some ed)
    (hn' : jsTrim n ≠ "") (hd' : jsTrim d ≠ "") (hsd' : jsTrim sd ≠ "")
    (hed' : jsTrim ed ≠ "") (huniq : findOneByName store n = none) :
    ∃ p : Project,
      createProject store body caller nid = (.ok p, store ++ [p]) ∧
      p.owner = caller ∧ p.totalHours = 0 := by
  refine ⟨{ id := nid, name := n, description := d, startDate := sd,
            endDate := ed, status := none, owner := caller, members := [],
            totalHours := 0 }, ?_, rfl, rfl⟩
  simp [createProject, hn, hd, hsd, hed, blankCheck, hn', hd', hsd', hed',
    huniq]

/-- Witness for C4: the spec's creation scenario on an empty store. -/
theorem createProject_valid_unique_ok_witness :
    ∃ p : Project,
      createProject [] demoBody hexC hexA = (.ok p, [] ++ [p]) ∧
      p.owner = hexC ∧ p.totalHours = 0 :=
  createProject_valid_unique_ok [] demoBody hexC hexA "Alpha" "d" "2024-01-01"
    "2024-12-31" rfl rfl rfl rfl (by decide) (by decide) (by decide)
    (by decide) rfl

/-- C6: a creation attempt with present, non-blank fields whose name is
already the name of a stored project answers the conflict response and the
store is unchanged (no document inserted). -/
theorem createProject_duplicate_name_conflict
    (store : Store) (body : CreateBody) (caller nid : String)
    (n d sd ed : String) (q : Project)
    (hn : body.name = some n) (hd : body.description = some d)
    (hsd : body.startDate = some sd) (hed : body.endDate = some ed)
    (hn' : jsTrim n ≠ "") (hd' : jsTrim d ≠ "") (hsd' : jsTrim sd ≠ "")
    (hed' : jsTrim ed ≠ "") (hdup : findOneByName store n = some q) :
    createProject store body caller nid = (.conflictError, store) := by
  simp [createProject, hn, hd, hsd, hed, blankCheck, hn', hd', hsd', hed',
    hdup]

/-- Witness for C6: re-creating `"Alpha"` on a store that already holds it. -/
theorem createProject_duplicate_name_conflict_witness :
    createProject [demoProject] demoBodyDup hexE hexB =
      (.conflictError, [demoProject]) :=
  createProject_duplicate_name_conflict [demoProject] demoBodyDup hexE hexB "Alpha"
    "other" "2025-01-01" "2025-12-31" demoProject rfl rfl rfl rfl
    (by decide) (by decide) (by decide) (by decide) (by decide)

/-- C1 (code divergence): calling `updateProject` with a syntactically
valid id of an absent project and a patch containing one updatable field
answers the 500 server-error response — the `TypeError` raised by
`project.owner` on the `null` lookup result lands in the handler's `catch`.
`UpdateResult` has no not-found exit at all, so the documented 404 response
is unreachable. -/
theorem updateProject_absent_project_server_error :
    updateProject [] hexB demoPatch hexC = (.serverError, ([] : Store)) := by
  decide

/-- C2 (code divergence): a store holding a project owned by the caller on
which `getAllProjectsOfAUser` nevertheless answers the empty list — the
handler filters on the nonexistent `userId` field instead of `owner`. -/
theorem getAllProjectsOfAUser_drops_owned_project :
    demoProject.owner = hexC ∧ demoProject ∈ [demoProject] ∧
    getAllProjectsOfAUser [demoProject] hexC = [] :=
  ⟨rfl, by simp, rfl⟩

/-- C5: an `updateProject` call on a stored project whose owner differs
from the caller answers the authorization failure and leaves the store
unchanged — no field is written. -/
theorem updateProject_nonowner_authorization_error
    (store : Store) (pid : String) (patch : Patch) (caller : String)
    (project : Project)
    (hvalid : isValidObjectId pid = true)
    (hfind : findById store pid = some project)
    (howner : project.owner ≠ caller)
    (hsome : (truthy patch.name || truthy patch.description
      || truthy patch.startDate || truthy patch.endDate
      || truthy patch.status) = true) :
    updateProject store pid patch caller = (.authorizationError, store) := by
  simp [updateProject, hvalid, hfind, howner, hsome]

/-- Witness for C5: non-owner `hexE` renaming `hexC`'s project. -/
theorem updateProject_nonowner_authorization_error_witness :
    updateProject [demoProject] hexA demoPatch hexE =
      (.authorizationError, [demoProject]) :=
  updateProject_nonowner_authorization_error [demoProject] hexA demoPatch
    hexE demoProject (by decide) (by decide) (by decide) (by decide)

/-- C7: a successful `updateProject` changes exactly the fields the patch
provides — every omitted field, and `id`, `owner`, `members` and
`totalHours`, keep their prior values —, persists the result in place of
the old document (other documents untouched) and returns it. -/
theorem updateProject_applies_only_given_fields
    (store : Store) (pid : String) (patch : Patch) (caller : String)
    (project : Project)
    (hvalid : isValidObjectId pid = true)
    (hfind : findById store pid = some project)
    (howner : project.owner = caller)
    (hsome : (truthy patch.name || truthy patch.description
      || truthy patch.startDate || truthy patch.endDate
      || truthy patch.status) = true) :
    ∃ p' : Project,
      updateProject store pid patch caller = (.ok p', replaceById store pid p') ∧
      (∀ v, patch.name = some v → p'.name = v) ∧
      (patch.name = none → p'.name = project.name) ∧
      (∀ v, patch.description = some v → p'.description = v) ∧
      (patch.description = none → p'.description = project.description) ∧
      (∀ v, patch.startDate = some v → p'.startDate = v) ∧
      (patch.startDate = none → p'.startDate = project.startDate) ∧
      (∀ v, patch.endDate = some v → p'.endDate = v) ∧
      (patch.endDate = none → p'.endDate = project.endDate) ∧
      (∀ v, patch.status = some v → p'.status = some v) ∧
      (patch.status = none → p'.status = project.status) ∧
      p'.id = project.id ∧ p'.owner = project.owner ∧
      p'.members = project.members ∧ p'.totalHours = project.totalHours ∧
      ∀ q ∈ store, q.id ≠ pid → q ∈ replaceById store pid p' := by
  refine ⟨applyPatch project patch, ?_, ?_, ?_, ?_, ?_, ?_, ?_, ?_, ?_, ?_,
    ?_, rfl, rfl, rfl, rfl, ?_⟩
  · simp [updateProject, hvalid, hfind, howner, hsome]
  · intro v hv; simp [applyPatch, hv]
  · intro hv; simp [applyPatch, hv]
  · intro v hv; simp [applyPatch, hv]
  · intro hv; simp [applyPatch, hv]
  · intro v hv; simp [applyPatch, hv]
  · intro hv; simp [applyPatch, hv]
  · intro v hv; simp [applyPatch, hv]
  · intro hv; simp [applyPatch, hv]
  · intro v hv; simp [applyPatch, hv]
  · intro hv; simp [applyPatch, hv]
  · intro q hq hne
    unfold replaceById
    exact List.mem_map.mpr ⟨q, hq, by simp [hne]⟩

/-- Witness for C7: the owner renames `demoProject` to `"Beta"`; the result
keeps owner and hours. -/
theorem updateProject_applies_only_given_fields_witness :
    ∃ p' : Project,
      updateProject [demoProject] hexA demoPatch hexC =
        (.ok p', replaceById [demoProject] hexA p') ∧
      p'.name = "Beta" ∧ p'.owner = demoProject.owner ∧
      p'.totalHours = demoProject.totalHours := by
  obtain ⟨p', heq, hn1, _, _, _, _, _, _, _, _, _, _, hown, _, hth, _⟩ :=
    updateProject_applies_only_given_fields [demoProject] hexA demoPatch
      hexC demoProject (by decide) (by decide) (by decide) (by decide)
  exact ⟨p', heq, hn1 "Beta" rfl, hown, hth⟩

/-- C8: `deleteProject` rejects a syntactically invalid id with the
validation response, answers not-found when no document has the id, and
otherwise deletes for any authenticated caller — the handler reads no
caller identity, so ownership is never checked — and returns the deleted
document's prior state. -/
theorem deleteProject_full_behaviour (store : Store) (pid : String) :
    (isValidObjectId pid = false →
      deleteProject store pid = (.validationError, store)) ∧
    (isValidObjectId pid = true → findById store pid = none →
      deleteProject store pid = (.notFoundError, store)) ∧
    (∀ p : Project, isValidObjectId pid = true → findById store pid = some p →
      deleteProject store pid = (.ok p, store.filter (fun q => q.id ≠ pid))) := by
  refine ⟨?_, ?_, ?_⟩
  · intro h; simp [deleteProject, h]
  · intro hv hn; simp [deleteProject, hv, hn]
  · intro p hv hp; simp [deleteProject, hv, hp]

/-- Witness for C8: the three behaviours on concrete stores and ids. -/
theorem deleteProject_full_behaviour_witness :
    deleteProject [demoProject] "nope" = (.validationError, [demoProject]) ∧
    deleteProject [demoProject] hexB = (.notFoundError, [demoProject]) ∧
    deleteProject [demoProject] hexA = (.ok demoProject, []) :=
  ⟨(deleteProject_full_behaviour [demoProject] "nope").1 (by decide),
   (deleteProject_full_behaviour [demoProject] hexB).2.1 (by decide)
     (by decide),
   ((deleteProject_full_behaviour [demoProject] hexA).2.2 demoProject
     (by decide) (by decide)).trans (by decide)⟩

/-- C10: `updateProject` runs no object-id validity check before its
lookup: a syntactically invalid id (with a patch that passes the
non-empty-details check, the operation's precondition) reaches the
persistence lookup, whose `CastError` the `catch` maps to the 500
server-error response — not to the validation response that
`getProjectById` and `deleteProject` answer for the same id. -/
theorem updateProject_invalid_id_server_error
    (store : Store) (pid : String) (patch : Patch) (caller : String)
    (hinvalid : isValidObjectId pid = false)
    (hsome : (truthy patch.name || truthy patch.description
      || truthy patch.startDate || truthy patch.endDate
      || truthy patch.status) = true) :
    updateProject store pid patch caller = (.serverError, store) ∧
    getProjectById store pid = .validationError ∧
    (deleteProject store pid).1 = .validationError := by
  refine ⟨?_, ?_, ?_⟩ <;>
    simp [updateProject, getProjectById, deleteProject, hinvalid, hsome]

/-- Witness for C10: the invalid id `"12345"`. -/
theorem updateProject_invalid_id_server_error_witness :
    updateProject [demoProject] "12345" demoPatch hexC =
      (.serverError, [demoProject]) ∧
    getProjectById [demoProject] "12345" = .validationError ∧
    (deleteProject [demoProject] "12345").1 = .validationError :=
  updateProject_invalid_id_server_error [demoProject] "12345" demoPatch hexC
    (by decide) (by decide)

/-- Any call that reaches the membership test with the target already a
member answers the conflict error and leaves the store unchanged. -/
lemma addMembers_conflict_of_member
    (store : Store) (users : List String) (pid uid caller : String)
    (project : Project)
    (hfind : findById store pid = some project)
    (hvp : isValidObjectId pid = true) (hvu : isValidObjectId uid = true)
    (hu : uid ∈ users) (howner : project.owner = caller)
    (hmem : uid ∈ project.members) :
    addMembersToProject store users pid uid caller =
      (.conflictError, store) := by
  simp [addMembersToProject, hvp, hvu, hfind, hu, howner, hmem]

/-- C3: membership stays duplicate-free.  With the checks that precede the
membership test satisfied, `addMembersToProject` on a target already in
`members` answers the conflict error and leaves the store unchanged; on a
fresh target it appends the target once, preserves freedom from duplicates,
and an immediate second call with the same target answers the conflict
error and changes nothing — the same target is added at most once. -/
theorem addMembersToProject_no_duplicate_members
    (store : Store) (users : List String) (pid uid caller : String)
    (project : Project)
    (hfind : findById store pid = some project)
    (hvp : isValidObjectId pid = true) (hvu : isValidObjectId uid = true)
    (huser : uid ∈ users) (howner : project.owner = caller) :
    (uid ∈ project.members →
      addMembersToProject store users pid uid caller =
        (.conflictError, store)) ∧
    (uid ∉ project.members → ∀ p' store',
      addMembersToProject store users pid uid caller = (.ok p', store') →
      p'.members = project.members ++ [uid] ∧
      (project.members.Nodup → p'.members.Nodup) ∧
      addMembersToProject store' users pid uid caller =
        (.conflictError, store')) := by
  constructor
  · exact addMembers_conflict_of_member store users pid uid caller project
      hfind hvp hvu huser howner
  · intro hnot p' store' heq
    have hres : addMembersToProject store users pid uid caller =
        (.ok { project with members := project.members ++ [uid] },
          replaceById store pid
            { project with members := project.members ++ [uid] }) := by
      simp [addMembersToProject, hvp, hvu, hfind, huser, howner, hnot]
    rw [hres] at heq
    have hp' : p' = { project with members := project.members ++ [uid] } := by
      have h := congrArg Prod.fst heq
      simpa using h.symm
    have hst : store' = replaceById store pid
        { project with members := project.members ++ [uid] } := by
      have h := congrArg Prod.snd heq
      exact h.symm
    subst hp'
    subst hst
    refine ⟨rfl, ?_, ?_⟩
    · intro hnod
      exact hnod.append (List.nodup_singleton uid)
        (fun a ha hb => hnot ((List.mem_singleton.mp hb) ▸ ha))
    · have hid : ({ project with members := project.members ++ [uid] } :
          Project).id = pid := by
        simpa using findById_id hfind
      have hfind' := findById_replaceById _ hfind hid
      exact addMembers_conflict_of_member _ users pid uid caller _ hfind'
        hvp hvu huser (by simpa using howner) (by simp)

/-- Witness for C3: a repeated addition of `hexD` is rejected with the
conflict error and the store is unchanged. -/
theorem addMembersToProject_no_duplicate_members_witness :
    addMembersToProject [demoProjectD] [hexD] hexA hexD hexC =
      (.conflictError, [demoProjectD]) :=
  (addMembersToProject_no_duplicate_members [demoProjectD] [hexD] hexA hexD
    hexC demoProjectD (by decide) (by decide) (by decide) (by decide)
    (by decide)).1 (by decide)

/-- C9 counterexample: with a blank `name` and an absent `description`, the
blank-field check short-circuits at `name` and the handler produces the
400 validation response — despite the absent field, no `TypeError` is
thrown. -/
theorem createProject_absent_field_still_validation_error :
    ({ name := some "", description := none, startDate := some "2024-01-01",
       endDate := some "2024-12-31" } : CreateBody).description = none ∧
    createProject []
      { name := some "", description := none, startDate := some "2024-01-01",
        endDate := some "2024-12-31" } hexC hexA =
      (.validationError, ([] : Store)) :=
  ⟨rfl, rfl⟩

/-- C9 (amended): `createProject` escapes with the uncaught `TypeError` —
and thus produces no response — exactly when, among the four body fields in
evaluation order, some field is absent and every field before it is a
present, non-blank string; in particular the blank-field check is total
whenever all four fields are present strings. -/
theorem createProject_typeError_characterisation
    (store : Store) (body : CreateBody) (caller nid : String) :
    (createProject store body caller nid).1 = CreateResult.uncaughtTypeError ↔
      absentBeforeBlank
        [body.name, body.description, body.startDate, body.endDate] := by
  rw [← blankCheck_none_iff]
  rcases h : blankCheck [body.name, body.description, body.startDate,
      body.endDate] with _ | b
  · simp [createProject, h]
  · cases b with
    | true => simp [createProject, h]
    | false =>
      have hall := blankCheck_false_all_present h
      obtain ⟨n, hn, _⟩ := hall body.name (by simp)
      obtain ⟨d, hd, _⟩ := hall body.description (by simp)
      obtain ⟨sd, hsd, _⟩ := hall body.startDate (by simp)
      obtain ⟨ed, hed, _⟩ := hall body.endDate (by simp)
      rw [hn, hd, hsd, hed] at h
      rcases hq : findOneByName store n with _ | q <;>
        simp [createProject, h, hn, hd, hsd, hed, hq]
